import Mathlib

/-!
Shallow embedding of the assessment-platform backend
(`src/backend/server.ts`, which also contains the `JSONDatabase` class).

JavaScript runtime conventions used throughout:
* an absent value (`undefined`) is modelled as `none`;
* `v || d` on strings maps `none` and `""` to `d` (both are falsy);
* `v || d` on numbers maps `none` and `0` to `d`;
* object spread `{...a, ...b}` copies every key present in `b`, including
  keys whose value is `undefined`; the PUT route always builds its update
  object with all five keys present, so the five updatable question fields
  are modelled as `Option`s, `none` standing for a runtime `undefined`;
* strict equality `===` between two possibly-`undefined` numbers is
  `Option` equality (`undefined === undefined` is `true`);
* `Math.round x` for `x ≥ 0` is `⌊x + 1/2⌋`, modelled in exact rational
  arithmetic;
* `Date.now()` and `new Date().toISOString()` are passed in explicitly as
  `nowMs : Nat` and `nowIso : String`.
-/

namespace Ropes

/-- `Question` record (`types.ts`).  The five author-editable fields are
`Option`-valued because the PUT route can overwrite them with `undefined`
at runtime (see `updateQuestion`); the create route always stores `some`. -/
structure Question where
  id : String
  question : Option String
  options : Option (List String)
  correctAnswer : Option Int
  difficulty : Option String
  category : Option String
  createdAt : String
  updatedAt : Option String
deriving DecidableEq, Repr

/-- `Assessment` record (`types.ts`). -/
structure Assessment where
  id : String
  title : String
  description : String
  selectedChallenges : List String
  timeLimit : Int
  passingScore : Int
  password : Option String
  createdAt : String
  updatedAt : Option String
deriving DecidableEq, Repr

/-- `Submission` record (`types.ts`).  The answer map is an association
list keyed by question id (JS object keys are unique; lookup takes the
first binding). -/
structure Submission where
  id : String
  assessmentId : String
  candidateEmail : String
  answers : List (String × Int)
  score : Nat
  correctCount : Nat
  totalQuestions : Nat
  passed : Bool
  submittedAt : String
deriving DecidableEq, Repr

/-- The in-memory database held by `JSONDatabase` (`this.data`). -/
structure DB where
  questions : List Question
  assessments : List Assessment
  submissions : List Submission
deriving DecidableEq, Repr

def emptyDB : DB := ⟨[], [], []⟩

/-- JS `v || d` for an optional string: both `undefined` and `""` are falsy. -/
def jsOrStr (v : Option String) (d : String) : String :=
  match v with
  | none => d
  | some s => if s = "" then d else s

/-- JS `v || d` for an optional number: both `undefined` and `0` are falsy. -/
def jsOrInt (v : Option Int) (d : Int) : Int :=
  match v with
  | none => d
  | some n => if n = 0 then d else n

/-- `getQuestion`: `this.data.questions.find(q => q.id === id)`. -/
def getQuestion (db : DB) (id : String) : Option Question :=
  db.questions.find? (fun q => q.id = id)

/-- `getAssessment`: `this.data.assessments.find(a => a.id === id)`. -/
def getAssessment (db : DB) (id : String) : Option Assessment :=
  db.assessments.find? (fun a => a.id = id)

/-- Fields of a question supplied to `createQuestion`
(`Omit<Question, 'id' | 'createdAt'>`). -/
structure QuestionData where
  question : Option String
  options : Option (List String)
  correctAnswer : Option Int
  difficulty : Option String
  category : Option String
deriving DecidableEq, Repr

/-- `createQuestion`: assigns `id = Date.now().toString()` and a creation
timestamp, pushes onto the collection, returns the stored record.  No
check against existing ids is performed. -/
def createQuestion (db : DB) (fields : QuestionData) (nowMs : Nat)
    (nowIso : String) : DB × Question :=
  let newQuestion : Question :=
    { id := toString nowMs
      question := fields.question
      options := fields.options
      correctAnswer := fields.correctAnswer
      difficulty := fields.difficulty
      category := fields.category
      createdAt := nowIso
      updatedAt := none }
  ({ db with questions := db.questions ++ [newQuestion] }, newQuestion)

/-- Fields of an assessment supplied to `createAssessment`. -/
structure AssessmentData where
  title : String
  description : String
  selectedChallenges : List String
  timeLimit : Int
  passingScore : Int
  password : Option String
deriving DecidableEq, Repr

/-- `createAssessment`: same id/timestamp scheme as `createQuestion`. -/
def createAssessment (db : DB) (fields : AssessmentData) (nowMs : Nat)
    (nowIso : String) : DB × Assessment :=
  let newAssessment : Assessment :=
    { id := toString nowMs
      title := fields.title
      description := fields.description
      selectedChallenges := fields.selectedChallenges
      timeLimit := fields.timeLimit
      passingScore := fields.passingScore
      password := fields.password
      createdAt := nowIso
      updatedAt := none }
  ({ db with assessments := db.assessments ++ [newAssessment] }, newAssessment)

/-- Fields of a submission supplied to `createSubmission`
(`Omit<Submission, 'id' | 'submittedAt'>`). -/
structure SubmissionData where
  assessmentId : String
  candidateEmail : String
  answers : List (String × Int)
  score : Nat
  correctCount : Nat
  totalQuestions : Nat
  passed : Bool
deriving DecidableEq, Repr

/-- `createSubmission`: same id/timestamp scheme as `createQuestion`. -/
def createSubmission (db : DB) (fields : SubmissionData) (nowMs : Nat)
    (nowIso : String) : DB × Submission :=
  let newSubmission : Submission :=
    { id := toString nowMs
      assessmentId := fields.assessmentId
      candidateEmail := fields.candidateEmail
      answers := fields.answers
      score := fields.score
      correctCount := fields.correctCount
      totalQuestions := fields.totalQuestions
      passed := fields.passed
      submittedAt := nowIso }
  ({ db with submissions := db.submissions ++ [newSubmission] }, newSubmission)

/-- Request body of POST/PUT `/api/challenges`: any subset of the five
create fields may be supplied (`none` = field absent from the JSON body,
hence `undefined` on `req.body`). -/
structure QuestionBody where
  question : Option String
  options : Option (List String)
  correctAnswer : Option Int
  difficulty : Option String
  category : Option String
deriving DecidableEq, Repr

/-- POST `/api/challenges`: applies the JS `||` defaults
(`'', [], 0, 'medium', 'General'`) and stores the question. -/
def postChallenge (db : DB) (body : QuestionBody) (nowMs : Nat)
    (nowIso : String) : DB × Question :=
  createQuestion db
    { question := some (jsOrStr body.question "")
      options := some (body.options.getD [])
      correctAnswer := some (jsOrInt body.correctAnswer 0)
      difficulty := some (jsOrStr body.difficulty "medium")
      category := some (jsOrStr body.category "General") }
    nowMs nowIso

/-- The spread `{...orig, ...updates, updatedAt}` inside `updateQuestion`,
as invoked from the PUT route.  The route always builds `updates` with all
five keys present (`req.body.field` is `undefined` when absent), and object
spread copies a present key even when its value is `undefined`, so every
one of the five fields is overwritten by the body value. -/
def applyUpdates (q : Question) (u : QuestionBody) (nowIso : String) : Question :=
  { q with
    question := u.question
    options := u.options
    correctAnswer := u.correctAnswer
    difficulty := u.difficulty
    category := u.category
    updatedAt := some nowIso }

/-- Replace the first question whose id matches (`findIndex` + in-place
assignment); `none` when the id is absent. -/
def updateQuestionList (id : String) (u : QuestionBody) (nowIso : String) :
    List Question → Option (List Question × Question)
  | [] => none
  | q :: rest =>
    if q.id = id then
      let q' := applyUpdates q u nowIso
      some (q' :: rest, q')
    else
      match updateQuestionList id u nowIso rest with
      | some (rest', q') => some (q :: rest', q')
      | none => none

/-- PUT `/api/challenges/:id` composed with `updateQuestion`: returns the
updated record, or `none` (a 404) when the id is absent — never creating
an entity on miss. -/
def putChallenge (db : DB) (id : String) (body : QuestionBody)
    (nowIso : String) : DB × Option Question :=
  match updateQuestionList id body nowIso db.questions with
  | none => (db, none)
  | some (qs, q') => ({ db with questions := qs }, some q')

/-- `answers[questionId]` on the candidate answer map: `none` when the key
is absent. -/
def lookupAnswer (answers : List (String × Int)) (qid : String) : Option Int :=
  (answers.find? (fun p => p.1 = qid)).map (fun p => p.2)

/-- One iteration of the scoring loop:
`question && answers[questionId] === question.correctAnswer`.
The `===` compares two possibly-`undefined` numbers, i.e. `Option Int`
equality. -/
def answeredCorrectly (db : DB) (answers : List (String × Int))
    (qid : String) : Bool :=
  match getQuestion db qid with
  | some q => decide (lookupAnswer answers qid = q.correctAnswer)
  | none => false

/-- The `forEach` counting loop: `correctCount` is the number of listed
question ids whose resolved question is answered correctly. -/
def countCorrect (db : DB) (answers : List (String × Int))
    (ids : List String) : Nat :=
  ids.countP (answeredCorrectly db answers)

/-- `Math.round((correctCount / totalQuestions) * 100)` in exact rational
arithmetic: for `x ≥ 0`, `Math.round x = ⌊x + 1/2⌋`, and
`⌊100 c / t + 1/2⌋ = (200 c + t) / (2 t)` in natural division. -/
def scorePercent (c t : Nat) : Nat :=
  (200 * c + t) / (2 * t)

/-- `score >= (assessment.passingScore || 70)`: the JS `||` replaces a
passing score of `0` by the default `70`. -/
def computePassed (score : Nat) (passingScore : Int) : Bool :=
  decide ((score : Int) ≥ (if passingScore = 0 then 70 else passingScore))

/-- `candidateEmail.trim()` (ASCII whitespace: space, tab, carriage
return, line feed), written over the character list so that it reduces on
concrete strings. -/
def jsTrim (s : String) : String :=
  ⟨((s.data.dropWhile Char.isWhitespace).reverse.dropWhile
      Char.isWhitespace).reverse⟩

/-- Request body of POST `/api/assessments/:id/submit`. -/
structure SubmissionRequest where
  candidateEmail : Option String
  answers : Option (List (String × Int))
deriving DecidableEq, Repr

/-- Outcome of the submit route. -/
inductive SubmitResult where
  | notFound
  | validationError (msg : String)
  | created (s : Submission)
deriving DecidableEq, Repr

/-- POST `/api/assessments/:id/submit` (`server.ts` lines 210–258):
404 on a missing assessment; 400 when the trimmed candidate email is
empty; otherwise scores the answers against the assessment's
`selectedChallenges`, builds the submission, and persists it. -/
def submitAssessment (db : DB) (aid : String) (req : SubmissionRequest)
    (nowMs : Nat) (nowIso : String) : DB × SubmitResult :=
  match getAssessment db aid with
  | none => (db, .notFound)
  | some a =>
    let answers := req.answers.getD []
    let candidateEmail := req.candidateEmail.getD ""
    if jsTrim candidateEmail = "" then
      (db, .validationError "Candidate email is required")
    else
      let correctCount := countCorrect db answers a.selectedChallenges
      let totalQuestions := a.selectedChallenges.length
      let score := if totalQuestions > 0 then scorePercent correctCount totalQuestions else 0
      let passed := computePassed score a.passingScore
      let result := createSubmission db
        { assessmentId := aid
          candidateEmail := jsTrim candidateEmail
          answers := answers
          score := score
          correctCount := correctCount
          totalQuestions := totalQuestions
          passed := passed } nowMs nowIso
      (result.1, .created result.2)

/-- The questions attached to an assessment view:
`db.getQuestions().filter(q => assessment.selectedChallenges.includes(q.id))`.
The result is in the question store's insertion order. -/
def assessmentQuestions (db : DB) (a : Assessment) : List Question :=
  db.questions.filter (fun q => a.selectedChallenges.contains q.id)

/-- The candidate-facing projection of a question: the `.map` in the take
route keeps `id`, `question`, `options`, `difficulty`, `category` and has
no `correctAnswer` field at all. -/
structure CandidateQuestion where
  id : String
  question : Option String
  options : Option (List String)
  difficulty : Option String
  category : Option String
deriving DecidableEq, Repr

def stripQuestion (q : Question) : CandidateQuestion :=
  { id := q.id
    question := q.question
    options := q.options
    difficulty := q.difficulty
    category := q.category }

/-- Response body of the take route: the assessment spread with
`password: undefined` (dropped from the JSON) plus the projected
questions. -/
structure TakeView where
  base : Assessment
  challenges : List CandidateQuestion
deriving DecidableEq, Repr

inductive TakeResult where
  | notFound
  | authRequired
  | ok (v : TakeView)
deriving DecidableEq, Repr

/-- The access gate inside the take route:
`assessment.password && assessment.password !== providedPassword`.
A string is truthy iff non-empty; `!==` against a missing header
(`undefined`) is `true`. -/
def passwordRejects (pw cred : Option String) : Bool :=
  match pw with
  | none => false
  | some s =>
    if s = "" then false
    else
      match cred with
      | none => true
      | some p => decide (s ≠ p)

/-- GET `/api/assessments/:id/take` (`server.ts` lines 169–208). -/
def takeAssessment (db : DB) (aid : String) (cred : Option String) : TakeResult :=
  match getAssessment db aid with
  | none => .notFound
  | some a =>
    if passwordRejects a.password cred then .authRequired
    else
      .ok { base := { a with password := none }
            challenges := (assessmentQuestions db a).map stripQuestion }

/-- Response body of the authoring fetch: the assessment unredacted plus
the full question records. -/
structure AuthoringView where
  base : Assessment
  challenges : List Question
deriving DecidableEq, Repr

/-- GET `/api/assessments/:id` (`server.ts` lines 145–167). -/
def getAssessmentView (db : DB) (aid : String) : Option AuthoringView :=
  match getAssessment db aid with
  | none => none
  | some a => some { base := a, challenges := assessmentQuestions db a }

/-! ### Concrete fixtures

Small databases used to evaluate the handlers on explicit inputs.  The
store loads its collections verbatim from the JSON data files, so any
well-typed record can occur as store content. -/

def fixtureQ1 : Question :=
  { id := "1", question := some "Q1", options := some ["a", "b"],
    correctAnswer := some 1, difficulty := some "easy", category := some "Math",
    createdAt := "t0", updatedAt := none }

def fixtureQ2 : Question :=
  { id := "2", question := some "Q2", options := some ["x", "y"],
    correctAnswer := some 0, difficulty := some "hard", category := some "Sci",
    createdAt := "t0", updatedAt := none }

def mkAsmt (id : String) (sel : List String) (pass : Int) (pw : Option String) :
    Assessment :=
  { id := id, title := "T", description := "D", selectedChallenges := sel,
    timeLimit := 30, passingScore := pass, password := pw,
    createdAt := "t0", updatedAt := none }

def asmtScore : Assessment := mkAsmt "9" ["1", "2"] 50 none
def asmtZero : Assessment := mkAsmt "10" [] 0 none
def asmtEmptyPw : Assessment := mkAsmt "11" ["1", "2"] 50 (some "")
def asmtPw : Assessment := mkAsmt "12" ["1", "2"] 50 (some "abc123")
def asmtRev : Assessment := mkAsmt "13" ["2", "1"] 50 none
def asmtDup : Assessment := mkAsmt "14" ["1", "1"] 50 none
def asmtGone : Assessment := mkAsmt "15" ["1", "gone"] 50 none

/-- A store with two questions and one assessment per test scenario. -/
def dbMain : DB :=
  { questions := [fixtureQ1, fixtureQ2]
    assessments :=
      [asmtScore, asmtZero, asmtEmptyPw, asmtPw, asmtRev, asmtDup, asmtGone]
    submissions := [] }

/-- Request body with no fields supplied. -/
def emptyQuestionBody : QuestionBody := ⟨none, none, none, none, none⟩

/-! ### Helper lemmas -/

/-- Characterisation of a successful submit: the stored submission is
exactly the record built on `server.ts` lines 239–247. -/
theorem submitAssessment_created {db : DB} {aid : String}
    {req : SubmissionRequest} {nowMs : Nat} {nowIso : String} {a : Assessment}
    {db' : DB} {s : Submission}
    (ha : getAssessment db aid = some a)
    (h : submitAssessment db aid req nowMs nowIso = (db', .created s)) :
    s = { id := toString nowMs
          assessmentId := aid
          candidateEmail := jsTrim (req.candidateEmail.getD "")
          answers := req.answers.getD []
          score := if a.selectedChallenges.length > 0 then
              scorePercent (countCorrect db (req.answers.getD []) a.selectedChallenges)
                a.selectedChallenges.length
            else 0
          correctCount := countCorrect db (req.answers.getD []) a.selectedChallenges
          totalQuestions := a.selectedChallenges.length
          passed := computePassed
            (if a.selectedChallenges.length > 0 then
              scorePercent (countCorrect db (req.answers.getD []) a.selectedChallenges)
                a.selectedChallenges.length
            else 0) a.passingScore
          submittedAt := nowIso } := by
  simp only [submitAssessment, ha] at h
  split at h
  · exact absurd h (by simp)
  · simp only [createSubmission, Prod.mk.injEq, SubmitResult.created.injEq] at h
    exact h.2.symm

/-- A successful take grants through the password gate and returns the
redacted view. -/
theorem takeAssessment_ok {db : DB} {aid : String} {cred : Option String}
    {a : Assessment} {v : TakeView}
    (ha : getAssessment db aid = some a)
    (h : takeAssessment db aid cred = .ok v) :
    passwordRejects a.password cred = false ∧
    v = { base := { a with password := none }
          challenges := (assessmentQuestions db a).map stripQuestion } := by
  simp only [takeAssessment, ha] at h
  split at h
  · exact absurd h (by simp)
  · next hrej =>
    simp only [TakeResult.ok.injEq] at h
    exact ⟨Bool.not_eq_true _ ▸ (by simpa using hrej), h.symm⟩

/-- When the gate does not reject, the take route returns the redacted
view. -/
theorem takeAssessment_grants {db : DB} {aid : String} {cred : Option String}
    {a : Assessment}
    (ha : getAssessment db aid = some a)
    (h : passwordRejects a.password cred = false) :
    takeAssessment db aid cred =
      .ok { base := { a with password := none }
            challenges := (assessmentQuestions db a).map stripQuestion } := by
  simp only [takeAssessment, ha, h]
  simp

/-! ### Claim C1 -/

/-- The submission stored by the scoring witness scenario on `asmtScore`. -/
def subScore : Submission :=
  { id := "7", assessmentId := "9", candidateEmail := "a@b.c",
    answers := [("1", 1), ("2", 1)], score := 50, correctCount := 1,
    totalQuestions := 2, passed := true, submittedAt := "t1" }

def reqScore : SubmissionRequest := ⟨some "a@b.c", some [("1", 1), ("2", 1)]⟩

def dbAfterScore : DB := { dbMain with submissions := [subScore] }

/-- C1, counterexample.  The claim says the stored `passed` flag equals
`score ≥ assessment.passingScore`, and that with an empty question list
`passed` is true when `passingScore` is 0.  The code computes
`score >= (assessment.passingScore || 70)`, so a passing score of 0 falls
back to the default threshold 70: submitting against `asmtZero`
(`passingScore = 0`, empty question list) stores `score = 0` and
`passed = false`, while the claim demands `passed = (0 ≥ 0) = true`. -/
theorem submit_passing_zero_counterexample :
    getAssessment dbMain "10" = some asmtZero ∧
    asmtZero.passingScore = 0 ∧
    asmtZero.selectedChallenges = [] ∧
    (submitAssessment dbMain "10" ⟨some "a@b.c", some []⟩ 7 "t1").2 =
      SubmitResult.created
        { id := "7", assessmentId := "10", candidateEmail := "a@b.c",
          answers := [], score := 0, correctCount := 0, totalQuestions := 0,
          passed := false, submittedAt := "t1" } := by
  refine ⟨by decide, by decide, by decide, by decide⟩

/-- C1, amended.  For every submit that stores a submission: the score is
`round(correctCount / totalQuestions * 100)` when the question list is
non-empty and 0 otherwise (as claimed), but the passed flag compares the
score against `passingScore || 70`, i.e. against 70 when the stored
passing score is 0; consequently with an empty question list the score is
0 and `passed` is true exactly when `passingScore` is negative (not when
it is 0). -/
theorem submit_score_and_passed {db : DB} {aid : String}
    {req : SubmissionRequest} {nowMs : Nat} {nowIso : String} {a : Assessment}
    {db' : DB} {s : Submission}
    (ha : getAssessment db aid = some a)
    (h : submitAssessment db aid req nowMs nowIso = (db', .created s)) :
    s.score = (if a.selectedChallenges.length > 0 then
        scorePercent (countCorrect db (req.answers.getD []) a.selectedChallenges)
          a.selectedChallenges.length
      else 0) ∧
    (s.passed = true ↔
      (s.score : Int) ≥ (if a.passingScore = 0 then 70 else a.passingScore)) ∧
    (a.selectedChallenges = [] →
      s.score = 0 ∧ (s.passed = true ↔ a.passingScore < 0)) := by
  have hs := submitAssessment_created ha h
  subst hs
  refine ⟨rfl, by simp [computePassed], ?_⟩
  intro hsel
  by_cases hp : a.passingScore = 0
  · simp [hsel, computePassed, hp]
  · simp [hsel, computePassed, hp]
    omega

/-- Witness for `submit_score_and_passed` on the concrete scenario
`asmtScore` (two questions, one answered correctly, score 50). -/
theorem submit_score_and_passed_witness :
    subScore.score = (if asmtScore.selectedChallenges.length > 0 then
        scorePercent
          (countCorrect dbMain (reqScore.answers.getD []) asmtScore.selectedChallenges)
          asmtScore.selectedChallenges.length
      else 0) ∧
    (subScore.passed = true ↔
      (subScore.score : Int) ≥
        (if asmtScore.passingScore = 0 then 70 else asmtScore.passingScore)) ∧
    (asmtScore.selectedChallenges = [] →
      subScore.score = 0 ∧ (subScore.passed = true ↔ asmtScore.passingScore < 0)) :=
  @submit_score_and_passed dbMain "9" reqScore 7 "t1" asmtScore dbAfterScore
    subScore (by decide) (by decide)

/-! ### Claim C2 -/

/-- C2: `totalQuestions` is the length of the assessment's
`selectedChallenges` at submission time, and an id that does not resolve
to a stored question never contributes to `correctCount`: dropping such an
id from the list leaves `correctCount` unchanged (while the total still
counts it). -/
theorem submit_total_includes_unresolved {db : DB} {aid : String}
    {req : SubmissionRequest} {nowMs : Nat} {nowIso : String} {a : Assessment}
    {db' : DB} {s : Submission}
    (ha : getAssessment db aid = some a)
    (h : submitAssessment db aid req nowMs nowIso = (db', .created s)) :
    s.totalQuestions = a.selectedChallenges.length ∧
    ∀ l₁ qid l₂, a.selectedChallenges = l₁ ++ qid :: l₂ →
      getQuestion db qid = none →
      s.correctCount = countCorrect db (req.answers.getD []) (l₁ ++ l₂) := by
  have hs := submitAssessment_created ha h
  subst hs
  refine ⟨rfl, ?_⟩
  intro l₁ qid l₂ hsel hq
  have hqid : answeredCorrectly db (req.answers.getD []) qid = false := by
    simp [answeredCorrectly, hq]
  simp [countCorrect, hsel, List.countP_append, List.countP_cons, hqid]

/-- The submission stored when submitting against `asmtGone`, whose list
references the deleted id `"gone"`. -/
def subGone : Submission :=
  { id := "7", assessmentId := "15", candidateEmail := "a@b.c",
    answers := [("1", 1), ("gone", 0)], score := 50, correctCount := 1,
    totalQuestions := 2, passed := true, submittedAt := "t1" }

def reqGone : SubmissionRequest := ⟨some "a@b.c", some [("1", 1), ("gone", 0)]⟩

def dbAfterGone : DB := { dbMain with submissions := [subGone] }

/-- Witness for `submit_total_includes_unresolved`: `asmtGone` lists the
unresolvable id `"gone"`; the total counts it while `correctCount` equals
the count over the remaining list `["1"]`. -/
theorem submit_total_includes_unresolved_witness :
    subGone.totalQuestions = asmtGone.selectedChallenges.length ∧
    subGone.correctCount = countCorrect dbMain (reqGone.answers.getD []) (["1"] ++ []) :=
  ⟨(@submit_total_includes_unresolved dbMain "15" reqGone 7 "t1" asmtGone
      dbAfterGone subGone (by decide) (by decide)).1,
   (@submit_total_includes_unresolved dbMain "15" reqGone 7 "t1" asmtGone
      dbAfterGone subGone (by decide) (by decide)).2 ["1"] "gone" []
      (by decide) (by decide)⟩

/-! ### Claim C7 -/

/-- C7: a submit whose candidate email is absent, empty, or whitespace-only
after trimming is rejected with the 400 message naming the email field,
and the database — in particular the submissions collection — is returned
unchanged. -/
theorem submit_rejects_blank_email {db : DB} {aid : String}
    {req : SubmissionRequest} {nowMs : Nat} {nowIso : String} {a : Assessment}
    (ha : getAssessment db aid = some a)
    (he : jsTrim (req.candidateEmail.getD "") = "") :
    submitAssessment db aid req nowMs nowIso =
      (db, .validationError "Candidate email is required") := by
  simp [submitAssessment, ha, he]

/-- Witness for `submit_rejects_blank_email`: a whitespace-only email
against `asmtScore` leaves `dbMain` unchanged. -/
theorem submit_rejects_blank_email_witness :
    submitAssessment dbMain "9" ⟨some "   ", some [("1", 1)]⟩ 7 "t1" =
      (dbMain, .validationError "Candidate email is required") :=
  @submit_rejects_blank_email dbMain "9" ⟨some "   ", some [("1", 1)]⟩ 7 "t1"
    asmtScore (by decide) (by decide)

/-! ### Claim C3 -/

/-- What `fixtureQ1` becomes after a PUT that supplies only `difficulty`. -/
def clobberedQ1 : Question :=
  { id := "1", question := none, options := none, correctAnswer := none,
    difficulty := some "hard", category := none,
    createdAt := "t0", updatedAt := some "t2" }

/-- C3, code bug.  A PUT on question `"1"` supplying only `difficulty`
should keep every other field at its previous value, but the route builds
its update object with all five keys present (absent body fields are
`undefined`) and object spread copies `undefined` values, so the stored
record loses `question`, `options`, `correctAnswer` and `category`
(they become `undefined`).  The not-found part of the claim does hold:
updating a missing id returns the store unchanged and creates nothing. -/
theorem put_clobbers_unsupplied_fields :
    getQuestion dbMain "1" = some fixtureQ1 ∧
    fixtureQ1.question = some "Q1" ∧
    fixtureQ1.options = some ["a", "b"] ∧
    fixtureQ1.correctAnswer = some 1 ∧
    fixtureQ1.category = some "Math" ∧
    putChallenge dbMain "1" ⟨none, none, none, some "hard", none⟩ "t2" =
      ({ dbMain with questions := [clobberedQ1, fixtureQ2] }, some clobberedQ1) ∧
    clobberedQ1.question = none ∧
    clobberedQ1.options = none ∧
    clobberedQ1.correctAnswer = none ∧
    clobberedQ1.category = none ∧
    clobberedQ1.difficulty = some "hard" ∧
    clobberedQ1.updatedAt = some "t2" ∧
    putChallenge dbMain "zzz" ⟨none, none, none, some "hard", none⟩ "t2" =
      (dbMain, none) := by
  decide

/-! ### Claim C4 -/

/-- The spec's stored-question invariant, `0 <= correctAnswer <
len(options)`, read on the runtime record (both fields must be present
and the index must address a real option). -/
def questionInvariant (q : Question) : Bool :=
  match q.correctAnswer, q.options with
  | some n, some opts => decide (0 ≤ n ∧ n < opts.length)
  | _, _ => false

/-- The record stored by a create with an empty request body. -/
def defaultedQ : Question :=
  { id := "5", question := some "", options := some [],
    correctAnswer := some 0, difficulty := some "medium",
    category := some "General", createdAt := "t", updatedAt := none }

def dbAfterDefaultedCreate : DB := ⟨[defaultedQ], [], []⟩

/-- C4, counterexample.  Creating a question from an empty body is
accepted and stores `correctAnswer = 0` with an empty option list; the
create→get round trip returns that record, whose `correctAnswer` indexes
no real option — the invariant `0 ≤ correctAnswer < len(options)` fails
in the store and creation was not rejected. -/
theorem create_unvalidated_counterexample :
    postChallenge emptyDB emptyQuestionBody 5 "t" =
      (dbAfterDefaultedCreate, defaultedQ) ∧
    getQuestion dbAfterDefaultedCreate "5" = some defaultedQ ∧
    defaultedQ.correctAnswer = some 0 ∧
    defaultedQ.options = some [] ∧
    questionInvariant defaultedQ = false := by
  decide

/-- C4, amended.  The create operation never rejects: it stores exactly
the supplied `correctAnswer` (JS-defaulted to 0 when absent) and the
supplied `options` (defaulted to `[]`), with no validation relating the
two, and — when the generated id is fresh — the create→get round trip
returns that unvalidated record; in particular the invariant
`0 ≤ correctAnswer < len(options)` is not enforced by any create or
update operation. -/
theorem create_accepts_unvalidated {db : DB} {body : QuestionBody}
    {nowMs : Nat} {nowIso : String}
    (hfresh : toString nowMs ∉ db.questions.map Question.id) :
    (postChallenge db body nowMs nowIso).2.correctAnswer =
      some (jsOrInt body.correctAnswer 0) ∧
    (postChallenge db body nowMs nowIso).2.options =
      some (body.options.getD []) ∧
    getQuestion (postChallenge db body nowMs nowIso).1 (toString nowMs) =
      some (postChallenge db body nowMs nowIso).2 := by
  refine ⟨rfl, rfl, ?_⟩
  have hnone : db.questions.find? (fun q => q.id = toString nowMs) = none := by
    refine List.find?_eq_none.2 ?_
    intro q hq
    simp only [decide_eq_true_eq]
    intro hid
    exact hfresh (List.mem_map.2 ⟨q, hq, hid⟩)
  simp only [postChallenge, createQuestion, getQuestion]
  rw [List.find?_append, hnone, Option.none_or]
  simp

/-- Witness for `create_accepts_unvalidated`: an empty body against the
empty store (id `"5"` is fresh). -/
theorem create_accepts_unvalidated_witness :
    (postChallenge emptyDB emptyQuestionBody 5 "t").2.correctAnswer =
      some (jsOrInt emptyQuestionBody.correctAnswer 0) ∧
    (postChallenge emptyDB emptyQuestionBody 5 "t").2.options =
      some (emptyQuestionBody.options.getD []) ∧
    getQuestion (postChallenge emptyDB emptyQuestionBody 5 "t").1 (toString 5) =
      some (postChallenge emptyDB emptyQuestionBody 5 "t").2 :=
  @create_accepts_unvalidated emptyDB emptyQuestionBody 5 "t" (by decide)

/-! ### Claim C5 -/

/-- C5: whenever the candidate-safe take fetch grants access, the returned
assessment carries no secret and every returned question is the
`stripQuestion` projection (a record type with no `correctAnswer` field at
all), while the authoring fetch for the same id returns the assessment
unredacted — secret included — with the full question records. -/
theorem take_strips_secret_and_answers {db : DB} {aid : String}
    {cred : Option String} {a : Assessment} {v : TakeView}
    (ha : getAssessment db aid = some a)
    (h : takeAssessment db aid cred = .ok v) :
    v.base.password = none ∧
    v.base = { a with password := none } ∧
    v.challenges = (assessmentQuestions db a).map stripQuestion ∧
    getAssessmentView db aid =
      some { base := a, challenges := assessmentQuestions db a } := by
  obtain ⟨hrej, hv⟩ := takeAssessment_ok ha h
  subst hv
  exact ⟨rfl, rfl, rfl, by simp [getAssessmentView, ha]⟩

/-- The take view returned for `asmtPw` with the right credential. -/
def viewPw : TakeView :=
  { base := mkAsmt "12" ["1", "2"] 50 none
    challenges := [stripQuestion fixtureQ1, stripQuestion fixtureQ2] }

/-- Witness for `take_strips_secret_and_answers`: assessment `"12"` has
secret `"abc123"`; with the right credential the take view is redacted
while the authoring fetch still carries the secret and full questions. -/
theorem take_strips_secret_and_answers_witness :
    viewPw.base.password = none ∧
    viewPw.base = { asmtPw with password := none } ∧
    viewPw.challenges = (assessmentQuestions dbMain asmtPw).map stripQuestion ∧
    getAssessmentView dbMain "12" =
      some { base := asmtPw, challenges := assessmentQuestions dbMain asmtPw } :=
  @take_strips_secret_and_answers dbMain "12" (some "abc123") asmtPw viewPw
    (by decide) (by decide)

/-! ### Claim C6 -/

/-- C6, counterexample.  Assessment `"11"` carries the secret `""` (the
empty string — loadable from the data files, though the create route
normalises an empty password to absent).  The claim requires a request
with the non-matching credential `"wrong"` to be rejected with 401, but
the gate tests JS truthiness of the stored secret, the empty string is
falsy, and access is granted. -/
theorem gate_empty_secret_counterexample :
    getAssessment dbMain "11" = some asmtEmptyPw ∧
    asmtEmptyPw.password = some "" ∧
    "wrong" ≠ "" ∧
    takeAssessment dbMain "11" (some "wrong") =
      .ok { base := { asmtEmptyPw with password := none }
            challenges := [stripQuestion fixtureQ1, stripQuestion fixtureQ2] } := by
  decide

/-- C6, amended.  For every existing assessment: when the stored secret is
absent or the empty string (both falsy in JS), access is granted
unconditionally; when the secret is a non-empty string, access is granted
exactly on string equality with the supplied credential, and every other
credential — missing or wrong — yields the 401 `AuthRequired` rejection. -/
theorem gate_access {db : DB} {aid : String} {cred : Option String}
    {a : Assessment} (ha : getAssessment db aid = some a) :
    ((a.password = none ∨ a.password = some "") →
      takeAssessment db aid cred =
        .ok { base := { a with password := none }
              challenges := (assessmentQuestions db a).map stripQuestion }) ∧
    (∀ s, a.password = some s → s ≠ "" →
      ((cred = some s →
        takeAssessment db aid cred =
          .ok { base := { a with password := none }
                challenges := (assessmentQuestions db a).map stripQuestion }) ∧
       (cred ≠ some s → takeAssessment db aid cred = .authRequired))) := by
  constructor
  · intro hpw
    apply takeAssessment_grants ha
    rcases hpw with hp | hp <;> simp [passwordRejects, hp]
  · intro s hs hne
    constructor
    · intro hcred
      subst hcred
      apply takeAssessment_grants ha
      simp [passwordRejects, hs, hne]
    · intro hcred
      have hrej : passwordRejects a.password cred = true := by
        simp only [passwordRejects, hs, if_neg hne]
        cases cred with
        | none => rfl
        | some p =>
          have hps : ¬ s = p := fun h => hcred (by rw [h])
          simp [hps]
      simp [takeAssessment, ha, hrej]

/-- Witness for `gate_access`, covering the spec's three gate scenarios:
no secret → granted with any credential; secret `"abc123"` with credential
`"wrong"` → 401; the same secret with the matching credential → granted. -/
theorem gate_access_witness :
    takeAssessment dbMain "9" (some "anything") =
      .ok { base := { asmtScore with password := none }
            challenges := (assessmentQuestions dbMain asmtScore).map stripQuestion } ∧
    takeAssessment dbMain "12" (some "wrong") = .authRequired ∧
    takeAssessment dbMain "12" (some "abc123") =
      .ok { base := { asmtPw with password := none }
            challenges := (assessmentQuestions dbMain asmtPw).map stripQuestion } :=
  ⟨(@gate_access dbMain "9" (some "anything") asmtScore (by decide)).1
      (Or.inl (by decide)),
   ((@gate_access dbMain "12" (some "wrong") asmtPw (by decide)).2 "abc123"
      (by decide) (by decide)).2 (by decide),
   ((@gate_access dbMain "12" (some "abc123") asmtPw (by decide)).2 "abc123"
      (by decide) (by decide)).1 rfl⟩

/-! ### Claim C8 -/

/-- C8, counterexample.  Assessment `"13"` lists its questions as
`["2", "1"]`, but the take view filters the question store, so the
returned questions come back in store order `["1", "2"]`, not in the
selection order the claim requires. -/
theorem take_order_counterexample :
    getAssessment dbMain "13" = some asmtRev ∧
    asmtRev.selectedChallenges = ["2", "1"] ∧
    takeAssessment dbMain "13" none =
      .ok { base := { asmtRev with password := none }
            challenges := [stripQuestion fixtureQ1, stripQuestion fixtureQ2] } ∧
    [stripQuestion fixtureQ1, stripQuestion fixtureQ2].map CandidateQuestion.id
      = ["1", "2"] ∧
    ["1", "2"] ≠ ["2", "1"] := by
  decide

/-- C8, amended.  The candidate-facing fetch presents the assessment's
questions in the question store's insertion order (the store filtered to
ids listed on the assessment), not in `selectedChallenges` order; scoring,
by contrast, is genuinely independent of the selection order: permuting
`selectedChallenges` changes neither `correctCount`, nor the total, nor
the resulting score. -/
theorem take_order_and_scoring {db : DB} {aid : String}
    {cred : Option String} {a : Assessment} {v : TakeView}
    (ha : getAssessment db aid = some a)
    (h : takeAssessment db aid cred = .ok v) :
    v.challenges = (db.questions.filter
      (fun q => a.selectedChallenges.contains q.id)).map stripQuestion ∧
    (∀ sel ans, sel.Perm a.selectedChallenges →
      countCorrect db ans sel = countCorrect db ans a.selectedChallenges ∧
      sel.length = a.selectedChallenges.length ∧
      (if sel.length > 0 then
          scorePercent (countCorrect db ans sel) sel.length
        else 0) =
        (if a.selectedChallenges.length > 0 then
          scorePercent (countCorrect db ans a.selectedChallenges)
            a.selectedChallenges.length
        else 0)) := by
  obtain ⟨hrej, hv⟩ := takeAssessment_ok ha h
  subst hv
  refine ⟨rfl, ?_⟩
  intro sel ans hperm
  have h1 : countCorrect db ans sel = countCorrect db ans a.selectedChallenges :=
    hperm.countP_eq (answeredCorrectly db ans)
  have h2 := hperm.length_eq
  exact ⟨h1, h2, by rw [h1, h2]⟩

/-- The take view returned for `asmtRev`. -/
def viewRev : TakeView :=
  { base := mkAsmt "13" ["2", "1"] 50 none
    challenges := [stripQuestion fixtureQ1, stripQuestion fixtureQ2] }

/-- Witness for `take_order_and_scoring` on assessment `"13"` with the
permutation `["1", "2"]` of its selection `["2", "1"]`. -/
theorem take_order_and_scoring_witness :
    viewRev.challenges = (dbMain.questions.filter
      (fun q => asmtRev.selectedChallenges.contains q.id)).map stripQuestion ∧
    (countCorrect dbMain [("1", 1), ("2", 0)] ["1", "2"] =
        countCorrect dbMain [("1", 1), ("2", 0)] asmtRev.selectedChallenges ∧
      (["1", "2"] : List String).length = asmtRev.selectedChallenges.length ∧
      (if (["1", "2"] : List String).length > 0 then
          scorePercent (countCorrect dbMain [("1", 1), ("2", 0)] ["1", "2"])
            (["1", "2"] : List String).length
        else 0) =
        (if asmtRev.selectedChallenges.length > 0 then
          scorePercent
            (countCorrect dbMain [("1", 1), ("2", 0)] asmtRev.selectedChallenges)
            asmtRev.selectedChallenges.length
        else 0)) :=
  ⟨(@take_order_and_scoring dbMain "13" none asmtRev viewRev
      (by decide) (by decide)).1,
   (@take_order_and_scoring dbMain "13" none asmtRev viewRev
      (by decide) (by decide)).2 ["1", "2"] [("1", 1), ("2", 0)] (by decide)⟩

/-! ### Claim C9 -/

/-- Appending a fresh element preserves distinctness. -/
theorem nodup_concat_of_not_mem {α : Type} {l : List α} {x : α}
    (hx : x ∉ l) (hl : l.Nodup) : (l ++ [x]).Nodup := by
  simp [List.nodup_append, hl, hx]

/-- C9, counterexample.  Ids come from `Date.now().toString()` with no
collision check: two creates in the same millisecond assign the same id,
so the second create collides with an id already present and the stored
question ids are no longer pairwise distinct. -/
theorem id_collision_counterexample :
    (postChallenge emptyDB emptyQuestionBody 5 "t").1.questions.map Question.id
      = ["5"] ∧
    (postChallenge (postChallenge emptyDB emptyQuestionBody 5 "t").1
        emptyQuestionBody 5 "t").2.id
      ∈ (postChallenge emptyDB emptyQuestionBody 5 "t").1.questions.map Question.id ∧
    ¬ ((postChallenge (postChallenge emptyDB emptyQuestionBody 5 "t").1
        emptyQuestionBody 5 "t").1.questions.map Question.id).Nodup := by
  decide

/-- C9, amended.  Every create assigns the id
`Date.now().toString()` — the decimal string of the creation-time
millisecond — with no check against existing ids; the identifiers in a
collection stay pairwise distinct only under the assumption that the new
timestamp string differs from every id already stored (in particular,
when all creates in a collection happen at pairwise distinct
milliseconds). -/
theorem create_id_time_based (db : DB) (qf : QuestionData)
    (af : AssessmentData) (sf : SubmissionData) (nowMs : Nat) (nowIso : String) :
    (createQuestion db qf nowMs nowIso).2.id = toString nowMs ∧
    (toString nowMs ∉ db.questions.map Question.id →
      (db.questions.map Question.id).Nodup →
      ((createQuestion db qf nowMs nowIso).1.questions.map Question.id).Nodup) ∧
    (createAssessment db af nowMs nowIso).2.id = toString nowMs ∧
    (toString nowMs ∉ db.assessments.map Assessment.id →
      (db.assessments.map Assessment.id).Nodup →
      ((createAssessment db af nowMs nowIso).1.assessments.map Assessment.id).Nodup) ∧
    (createSubmission db sf nowMs nowIso).2.id = toString nowMs ∧
    (toString nowMs ∉ db.submissions.map Submission.id →
      (db.submissions.map Submission.id).Nodup →
      ((createSubmission db sf nowMs nowIso).1.submissions.map Submission.id).Nodup) := by
  refine ⟨rfl, ?_, rfl, ?_, rfl, ?_⟩ <;>
  · intro hfresh hnodup
    simpa [createQuestion, createAssessment, createSubmission] using
      nodup_concat_of_not_mem hfresh hnodup

/-- Witness for `create_id_time_based` on `dbMain` (stored question ids
`["1", "2"]`, assessment ids `"9"`–`"15"`, no submissions) at the fresh
millisecond 5. -/
theorem create_id_time_based_witness :
    (createQuestion dbMain ⟨none, none, none, none, none⟩ 5 "t").2.id = toString 5 ∧
    ((createQuestion dbMain ⟨none, none, none, none, none⟩ 5 "t").1.questions.map
      Question.id).Nodup ∧
    (createAssessment dbMain ⟨"T", "D", [], 30, 70, none⟩ 5 "t").2.id = toString 5 ∧
    ((createAssessment dbMain ⟨"T", "D", [], 30, 70, none⟩ 5 "t").1.assessments.map
      Assessment.id).Nodup ∧
    (createSubmission dbMain ⟨"9", "a@b.c", [], 0, 0, 0, false⟩ 5 "t").2.id = toString 5 ∧
    ((createSubmission dbMain ⟨"9", "a@b.c", [], 0, 0, 0, false⟩ 5 "t").1.submissions.map
      Submission.id).Nodup := by
  have h := create_id_time_based dbMain ⟨none, none, none, none, none⟩
    ⟨"T", "D", [], 30, 70, none⟩ ⟨"9", "a@b.c", [], 0, 0, 0, false⟩ 5 "t"
  exact ⟨h.1, h.2.1 (by decide) (by decide), h.2.2.1,
    h.2.2.2.1 (by decide) (by decide), h.2.2.2.2.1,
    h.2.2.2.2.2 (by decide) (by decide)⟩

/-! ### Claim C10 -/

/-- In a store whose question ids are pairwise distinct, any fixed id
matches at most one stored question. -/
theorem countP_id_le_one_of_nodup {qid : String} {l : List Question}
    (h : (l.map Question.id).Nodup) :
    l.countP (fun q => q.id = qid) ≤ 1 := by
  induction l with
  | nil => simp
  | cons q l ih =>
    simp only [List.map_cons, List.nodup_cons] at h
    rw [List.countP_cons]
    by_cases hq : q.id = qid
    · have hzero : l.countP (fun q' => q'.id = qid) = 0 := by
        refine List.countP_eq_zero.2 ?_
        intro q' hq'
        simp only [decide_eq_true_eq]
        intro hid
        exact h.1 (List.mem_map.2 ⟨q', hq', hid.trans hq.symm⟩)
      simp [hq, hzero]
    · simpa [hq] using Nat.le_trans (ih h.2) (by omega)

/-- C10: when `selectedChallenges` repeats a question id, scoring counts
each occurrence separately — the total counts both occurrences and a
correctly answered duplicated question adds one per occurrence — while
the fetch views, which filter the (duplicate-free) question store, return
that question at most once. -/
theorem submit_duplicates_counted {db : DB} {aid : String}
    {req : SubmissionRequest} {nowMs : Nat} {nowIso : String} {a : Assessment}
    {db' : DB} {s : Submission} {l₁ l₂ l₃ : List String} {qid : String}
    (ha : getAssessment db aid = some a)
    (h : submitAssessment db aid req nowMs nowIso = (db', .created s))
    (hsel : a.selectedChallenges = l₁ ++ qid :: (l₂ ++ qid :: l₃)) :
    s.totalQuestions = l₁.length + l₂.length + l₃.length + 2 ∧
    s.correctCount =
      countCorrect db (req.answers.getD []) l₁ +
      countCorrect db (req.answers.getD []) l₂ +
      countCorrect db (req.answers.getD []) l₃ +
      (if answeredCorrectly db (req.answers.getD []) qid then 2 else 0) ∧
    ((db.questions.map Question.id).Nodup →
      (assessmentQuestions db a).countP (fun q => q.id = qid) ≤ 1) := by
  have hs := submitAssessment_created ha h
  subst hs
  refine ⟨?_, ?_, ?_⟩
  · simp [hsel]
    omega
  · simp only [countCorrect, hsel, List.countP_append, List.countP_cons]
    by_cases hq : answeredCorrectly db (req.answers.getD []) qid <;>
      simp [hq] <;> omega
  · intro hnodup
    calc (assessmentQuestions db a).countP (fun q => q.id = qid)
        ≤ db.questions.countP (fun q => q.id = qid) := by
          rw [assessmentQuestions, List.countP_filter]
          exact List.countP_mono_left (fun x _ hx => by
            simp at hx ⊢
            exact hx.1)
      _ ≤ 1 := countP_id_le_one_of_nodup hnodup

/-- The submission stored when submitting against `asmtDup`, whose list
repeats question id `"1"`. -/
def subDup : Submission :=
  { id := "7", assessmentId := "14", candidateEmail := "a@b.c",
    answers := [("1", 1)], score := 100, correctCount := 2,
    totalQuestions := 2, passed := true, submittedAt := "t1" }

def reqDup : SubmissionRequest := ⟨some "a@b.c", some [("1", 1)]⟩

def dbAfterDup : DB := { dbMain with submissions := [subDup] }

/-- Witness for `submit_duplicates_counted`: `asmtDup` lists `"1"` twice;
the correctly answered question counts twice (`correctCount = 2`,
`totalQuestions = 2`), while the take view of the duplicate-free store
returns it at most once. -/
theorem submit_duplicates_counted_witness :
    subDup.totalQuestions =
      ([] : List String).length + ([] : List String).length +
      ([] : List String).length + 2 ∧
    subDup.correctCount =
      countCorrect dbMain (reqDup.answers.getD []) [] +
      countCorrect dbMain (reqDup.answers.getD []) [] +
      countCorrect dbMain (reqDup.answers.getD []) [] +
      (if answeredCorrectly dbMain (reqDup.answers.getD []) "1" then 2 else 0) ∧
    (assessmentQuestions dbMain asmtDup).countP (fun q => q.id = "1") ≤ 1 :=
  ⟨(@submit_duplicates_counted dbMain "14" reqDup 7 "t1" asmtDup dbAfterDup
      subDup [] [] [] "1" (by decide) (by decide) (by decide)).1,
   (@submit_duplicates_counted dbMain "14" reqDup 7 "t1" asmtDup dbAfterDup
      subDup [] [] [] "1" (by decide) (by decide) (by decide)).2.1,
   (@submit_duplicates_counted dbMain "14" reqDup 7 "t1" asmtDup dbAfterDup
      subDup [] [] [] "1" (by decide) (by decide) (by decide)).2.2 (by decide)⟩

end Ropes
